import Mathlib

/-!
# Verification of `src/core/field_number_slider.js` (scratch-blocks fork)

Shallow embedding of `Blockly.FieldNumberSlider`: an editable number field
that opens a dropdown overlay containing a `goog.ui.Slider` and a live
readout.  JavaScript numbers are modelled as exact rationals (`ℚ`) plus a
distinguished NaN and signed infinities; machine floating point is
idealised away, as only parsing, one-decimal formatting and comparisons
with `0` occur in this widget.  Strings are Lean `String`s; the subset of
`Number(string)` / `Number.parseFloat` semantics actually reachable here
(optional sign, `Infinity` literals, decimal digits, optional fraction)
is modelled explicitly.

Behaviour of collaborators that is not in `src/` (the `Blockly.Field` base
class, `Blockly.FieldColourSlider`'s static listener key, the dropdown
manager and the closure-library slider and event system) is modelled from
the spec, as noted on each definition.
-/

namespace NumberSlider

/-- A JavaScript number: an exact rational, NaN, or a signed infinity
(`inf false` is `+Infinity`, `inf true` is `-Infinity`). -/
inductive JSNum where
  | nan : JSNum
  | num : ℚ → JSNum
  | inf : Bool → JSNum
deriving DecidableEq, Repr

/-- A JavaScript value of the shapes the constructor can receive
(`(string|number)=` in the source's JSDoc): `undefined`, a string,
or a number (possibly NaN or a signed infinity). -/
inductive JSVal where
  | undefined : JSVal
  | str : String → JSVal
  | nan : JSVal
  | num : ℚ → JSVal
  | inf : Bool → JSVal
deriving DecidableEq, Repr

/-- JavaScript truthiness on the modelled values: `undefined`, `NaN`,
`0` and the empty string are falsy, everything else (infinities
included) is truthy. -/
def JSVal.truthy : JSVal → Bool
  | .undefined => false
  | .str s => s != ""
  | .nan => false
  | .num q => q != 0
  | .inf _ => true

/-- Whitespace characters recognised by the modelled trimming step of
`Number(string)` coercion. -/
def isSpaceChar (c : Char) : Bool :=
  c = ' ' || c = '\t' || c = '\n' || c = '\r'

/-- Strip leading and trailing whitespace from a character list. -/
def trimChars (l : List Char) : List Char :=
  ((l.dropWhile isSpaceChar).reverse.dropWhile isSpaceChar).reverse

/-- Numeric value of a digit-character list read most-significant first
(used only after the characters have been checked to be digits). -/
def digitsToNat (l : List Char) : ℕ :=
  l.foldl (fun a c => 10 * a + (c.toNat - 48)) 0

/-- The characters of the JavaScript `Infinity` literal. -/
def infinityChars : List Char := ['I', 'n', 'f', 'i', 'n', 'i', 't', 'y']

/-- Parse an unsigned numeral that must span the whole list: the
`Infinity` literal, or digits optionally followed by `.` and further
digits, with at least one digit overall.  Models the
`StrUnsignedDecimalLiteral` forms reachable in this widget (no exponent,
no hex). -/
def strictUnsigned (l : List Char) : JSNum :=
  if l = infinityChars then .inf false
  else if l.dropWhile Char.isDigit = [] then
    if l.takeWhile Char.isDigit = [] then .nan
    else .num (digitsToNat (l.takeWhile Char.isDigit))
  else if (l.dropWhile Char.isDigit).head? = some '.' ∧
      ((l.dropWhile Char.isDigit).tail.all Char.isDigit ∧
        (l.takeWhile Char.isDigit ≠ [] ∨ (l.dropWhile Char.isDigit).tail ≠ [])) then
    .num ((digitsToNat (l.takeWhile Char.isDigit) : ℚ) +
      (digitsToNat ((l.dropWhile Char.isDigit).tail) : ℚ) /
        10 ^ ((l.dropWhile Char.isDigit).tail).length)
  else .nan

/-- The character-list core of `Number(string)` coercion: empty (after
trimming) is `0`, an optional sign, then a full-width unsigned decimal
numeral. -/
def jsStringToNumberList : List Char → JSNum
  | [] => .num 0
  | c :: r =>
      if c = '-' then
        match strictUnsigned r with
        | .num q => .num (-q)
        | .inf _ => .inf true
        | .nan => .nan
      else if c = '+' then strictUnsigned r
      else strictUnsigned (c :: r)

/-- JavaScript `Number(string)` coercion on the modelled fragment:
trim whitespace, empty string is `0`, optional sign, then a full-width
unsigned decimal numeral. -/
def jsStringToNumber (s : String) : JSNum :=
  jsStringToNumberList (trimChars s.toList)

/-- JavaScript `ToNumber` on the modelled constructor inputs. -/
def jsToNumber : JSVal → JSNum
  | .undefined => .nan
  | .str s => jsStringToNumber s
  | .nan => .nan
  | .num q => .num q
  | .inf b => .inf b

/-- JavaScript's global `isNaN`: coerce to a number, test for NaN. -/
def jsIsNaN (v : JSVal) : Bool :=
  jsToNumber v = JSNum.nan

/-- JavaScript `Number.parseFloat(string)`: skip leading whitespace,
optional sign, then a leading `Infinity` literal or the longest leading
run of digits with an optional fraction; NaN when neither is found.
Trailing garbage is ignored. -/
def parseFloatStr (s : String) : JSNum :=
  let l := s.toList.dropWhile isSpaceChar
  let (neg, l) :=
    match l with
    | '-' :: r => (true, r)
    | '+' :: r => (false, r)
    | _ => (false, l)
  if l.take 8 = infinityChars then .inf neg
  else
    let ip := l.takeWhile Char.isDigit
    let fp :=
      match l.dropWhile Char.isDigit with
      | '.' :: r => r.takeWhile Char.isDigit
      | _ => []
    if ip = [] ∧ fp = [] then .nan
    else
      let mag : ℚ := (digitsToNat ip : ℚ) + (digitsToNat fp : ℚ) / 10 ^ fp.length
      .num (if neg then -mag else mag)

/-- Decimal digits of a natural number, most significant first. -/
def natDigits (n : ℕ) : List Char :=
  if _h : n < 10 then [Nat.digitChar n]
  else natDigits (n / 10) ++ [Nat.digitChar (n % 10)]
termination_by n
decreasing_by exact Nat.div_lt_self (by omega) (by omega)

/-- JavaScript `Number.prototype.toFixed(1)` on the idealised rationals:
extract the sign, round the magnitude half-up to tenths, print with one
fractional digit.  (Mirrors the ECMAScript algorithm, which splits off
the sign before rounding and breaks ties towards the larger integer.) -/
def toFixed1 (q : ℚ) : String :=
  let m : ℕ := (⌊|q| * 10 + 1 / 2⌋).toNat
  String.mk
    ((if q < 0 then ['-'] else []) ++ natDigits (m / 10) ++ '.' :: natDigits (m % 10))

/-- Search upward from `k` (with the given fuel) for a digit count that
expresses `q` exactly as `m / 10 ^ k`. -/
def decDigitsAux (q : ℚ) : ℕ → ℕ → Option ℕ
  | _, 0 => none
  | k, fuel + 1 =>
      if (q * 10 ^ k).den = 1 then some k else decDigitsAux q (k + 1) fuel

/-- Fewest fractional decimal digits (up to 1099) that express `q`
exactly, when such a count exists.  Every finite IEEE-754 double admits
one: the smallest subnormal needs 1074 fractional digits.  Rationals
with no finite decimal expansion (such as `1/3`) correspond to no
JavaScript number at all. -/
def decDigits (q : ℚ) : Option ℕ :=
  decDigitsAux q 0 1100

/-- JavaScript `String(number)` on the modelled fragment: plain fixed
notation with the fewest digits that express the value exactly
(exponential notation for extreme magnitudes is out of the modelled
range; a rational with no finite decimal expansion — impossible for a
double — conservatively prints as `"NaN"`). -/
def jsNumToString (q : ℚ) : String :=
  match decDigits q with
  | some 0 => String.mk ((if q < 0 then ['-'] else []) ++ natDigits q.num.natAbs)
  | some k =>
      let m := (q * 10 ^ k).num.natAbs
      let frac := natDigits (m % 10 ^ k)
      String.mk ((if q < 0 then ['-'] else []) ++ natDigits (m / 10 ^ k)
        ++ '.' :: (List.replicate (k - frac.length) '0' ++ frac))
  | none => String.mk ['N', 'a', 'N']

/-- JavaScript `String(v)` on the modelled constructor inputs. -/
def jsValToString : JSVal → String
  | .undefined => "undefined"
  | .str s => s
  | .nan => "NaN"
  | .num q => jsNumToString q
  | .inf b => if b then "-Infinity" else "Infinity"

/-- The min/max/precision data handed to `getNumRestrictor`.
Modelled from the spec: `Blockly.FieldNumber.prototype.getNumRestrictor`
(not under `src/`) builds a typable-character restrictor from the three
parameters; the spec fixes nothing further about it, so the restrictor is
modelled as the record of the parameters it was built from. -/
structure NumRestrictor where
  rmin : JSVal
  rmax : JSVal
  rprecision : JSVal
deriving DecidableEq, Repr

/-- Modelled from the spec: builds the typable-character restrictor from
min/max/precision (`Blockly.FieldNumber.prototype.getNumRestrictor`, not
under `src/`). -/
def getNumRestrictor (opt_min opt_max opt_precision : JSVal) : NumRestrictor :=
  ⟨opt_min, opt_max, opt_precision⟩

/-- The per-instance state of a `Blockly.FieldNumberSlider`.
`value`, `argTypes` and `disposed` model the `Blockly.Field` base class
(from the spec: the base supplies `setValue`/`getValue`/`getText` and
resource release); `valueSlider` and `readoutText` model the widget's own
`valueSlider_` and `valueReadout_.textContent`. -/
structure Field where
  value : String
  argTypes : List String
  restrictor : NumRestrictor
  valueSlider : Option ℕ
  readoutText : Option String
  disposed : Bool
deriving DecidableEq, Repr

/-- The `Blockly.FieldNumberSlider` constructor (source lines 58–64):
build the restrictor from min/max/precision, normalise the initial value
with `(opt_value && !isNaN(opt_value)) ? String(opt_value) : '0'`, pass it
to the base-class constructor, and register the `'number'` arg type. -/
def fieldNumberSliderCtor (opt_value opt_min opt_max opt_precision : JSVal) : Field :=
  let numRestrictor := getNumRestrictor opt_min opt_max opt_precision
  let v := if opt_value.truthy && !(jsIsNaN opt_value) then jsValToString opt_value else "0"
  { value := v
    argTypes := ["number"]
    restrictor := numRestrictor
    valueSlider := none
    readoutText := none
    disposed := false }

/-- A `goog.ui.Slider` component, modelled from the spec and its observed
use: it carries a model value and the rendered handle position, clamps
programmatic sets to `[minimum, maximum]`, fires a CHANGE event exactly
when the clamped value differs from the current one, and — the
closure-library defect the widget works around — starts with model value
`0` but an unrendered handle, so that an initial `setValue(0)` fires no
event and leaves the handle unrendered. -/
structure Slider where
  value : ℚ
  handlePos : Option ℚ
  minimum : ℚ
  maximum : ℚ
  step : ℚ
  unitIncrement : ℚ
  moveToPoint : Bool
  bgColor : String
deriving DecidableEq, Repr

/-- The configuration part of a slider (everything except the value and
the rendered handle position). -/
def Slider.config (s : Slider) : ℚ × ℚ × ℚ × ℚ × Bool :=
  (s.minimum, s.maximum, s.step, s.unitIncrement, s.moveToPoint)

/-- One entry of the `goog.events` listener registry: the key returned by
`goog.events.listen`, the slider the listener is attached to, and the
field whose `sliderCallbackFactory_` closure it runs. -/
structure ListenerEntry where
  key : ℕ
  target : ℕ
  fieldId : ℕ
deriving DecidableEq, Repr

/-- An element of the dropdown overlay's content container: the
label + readout container built by `createLabelDom_`, or a rendered
slider element. -/
inductive DomItem where
  | label : ℕ → DomItem
  | sliderEl : ℕ → DomItem
deriving DecidableEq, Repr

/-- The global state the widget touches: all field instances, all slider
components ever created (addressed by an allocation counter), the
`goog.events` registry, the two class-level listener keys
(`Blockly.FieldNumberSlider.valueChangeEventKey_` and — modelled from the
spec, since `field_colourslider.js` is not under `src/` —
`Blockly.FieldColourSlider.valueChangeEventKey_`), the dropdown content,
and the Blockly event-group flag. -/
structure World where
  fields : ℕ → Field
  sliders : ℕ → Slider
  nextSliderId : ℕ
  listeners : List ListenerEntry
  nextKey : ℕ
  numberSliderKey : Option ℕ
  colourSliderKey : Option ℕ
  dropdownContent : List DomItem
  eventsGroupSet : Bool

/-- `Blockly.Field.prototype.setValue` — modelled from the spec: the base
class commits the new text through the (absent here) validator and stores
it; `getValue`/`getText` return it. No validator is installed by any
claim, so the committed value is the argument itself. -/
def Field.setValue (f : Field) (s : String) : Field :=
  { f with value := s }

/-- `Blockly.Field.prototype.getValue` — modelled from the spec. -/
def Field.getValue (f : Field) : String := f.value

/-- `Blockly.Field.prototype.getText` — modelled from the spec: the
displayed text of a number field is its value. -/
def Field.getText (f : Field) : String := f.value

/-- `updateDom_` (source lines 85–91): when a slider exists, set the
readout's `textContent` to `getText()`. -/
def updateDom (w : World) (fid : ℕ) : World :=
  if (w.fields fid).valueSlider.isSome then
    { w with
      fields := Function.update w.fields fid
        { w.fields fid with readoutText := some (w.fields fid).getText } }
  else w

/-- The body of the closure returned by `sliderCallbackFactory_`
(source lines 133–143): read the event target's value; when it is not
`null`, commit `Number.parseFloat(value || 0).toFixed(1)` through
`setValue` and refresh the readout via `updateDom_`.  `Number.parseFloat`
applied to a (finite, decimal) number is the identity, so only the
`value || 0` default and `toFixed(1)` remain. -/
def sliderCallback (w : World) (fid : ℕ) (eventValue : Option ℚ) : World :=
  match eventValue with
  | none => w
  | some x =>
      updateDom
        { w with
          fields := Function.update w.fields fid
            ((w.fields fid).setValue (toFixed1 (if x = 0 then 0 else x))) }
        fid

/-- Synchronous dispatch of a CHANGE event on slider `sid`
(`goog.events`, modelled from the spec): every registered listener
attached to `sid` runs, in registration order; each runs the slider
callback of its field with the slider's current value. -/
def fireChange (w : World) (sid : ℕ) : World :=
  (w.listeners.filter (fun l => l.target = sid)).foldl
    (fun w' l => sliderCallback w' l.fieldId (some ((w'.sliders sid).value))) w

/-- `goog.ui.Slider.setValue` — modelled from the spec and the
closure-library bug the source cites: clamp to the range; when the
clamped value differs from the current one, store it, move the rendered
handle there, and fire CHANGE; otherwise do nothing (in particular a
fresh slider, whose model value is already `0`, ignores `setValue(0)`). -/
def sliderSetValue (w : World) (sid : ℕ) (v : ℚ) : World :=
  if max (w.sliders sid).minimum (min (w.sliders sid).maximum v) = (w.sliders sid).value then w
  else
    fireChange
      { w with
        sliders := Function.update w.sliders sid
          { w.sliders sid with
            value := max (w.sliders sid).minimum (min (w.sliders sid).maximum v)
            handlePos := some (max (w.sliders sid).minimum (min (w.sliders sid).maximum v)) } }
      sid

/-- `updateSliderHandles_` (source lines 97–107): when a slider exists,
parse the field's value with `Number.parseFloat`; if it is `0`, first set
the slider to `1` (the zero-initial-value workaround) and then,
unconditionally, set it to the parsed value.  A value that parses to NaN
or to an infinity leaves the slider untouched in this model (slider
model values are finite; the real slider would clamp an infinite
argument into its range). -/
def updateSliderHandles (w : World) (fid : ℕ) : World :=
  match (w.fields fid).valueSlider with
  | none => w
  | some sid =>
      match parseFloatStr (w.fields fid).getValue with
      | .nan => w
      | .inf _ => w
      | .num q =>
          sliderSetValue (if q = 0 then sliderSetValue w sid 1 else w) sid q

/-- The slider as freshly configured by `showEditor_` (source lines
157–162): unit increment `0.1`, step `0.1`, minimum `-1`, maximum `1`,
move-to-point enabled, background `#EEEEEE`; a new closure slider starts
with model value `0` and an unrendered handle. -/
def freshSlider : Slider :=
  { value := 0
    handlePos := none
    minimum := -1
    maximum := 1
    step := 1 / 10
    unitIncrement := 1 / 10
    moveToPoint := true
    bgColor := "#EEEEEE" }

/-- `showEditor_` (source lines 149–177): hide the dropdown, clear its
content, build the label + readout (a fresh readout span is empty),
construct and configure a new slider, render it into the content div,
attach the change listener — storing the key in the class-level
`Blockly.FieldNumberSlider.valueChangeEventKey_` —, show the dropdown
(positioning/theming is outside the model), then synchronise the slider
handles and the readout. -/
def showEditor (w : World) (fid : ℕ) : World :=
  updateDom
    (updateSliderHandles
      { w with
        fields := Function.update w.fields fid
          { w.fields fid with readoutText := some "", valueSlider := some w.nextSliderId }
        sliders := Function.update w.sliders w.nextSliderId freshSlider
        nextSliderId := w.nextSliderId + 1
        listeners := w.listeners ++ [⟨w.nextKey, w.nextSliderId, fid⟩]
        nextKey := w.nextKey + 1
        numberSliderKey := some w.nextKey
        dropdownContent := [DomItem.label fid, DomItem.sliderEl w.nextSliderId] }
      fid)
    fid

/-- `dispose` (source lines 179–185): when the class-level key of
`Blockly.FieldColourSlider` — not of this class; the source reads the
colour slider's static — is set, unlisten it; clear the Blockly event
group; call the base-class `dispose` (modelled from the spec: the base
releases the field's resources, leaving it disposed). -/
def dispose (w : World) (fid : ℕ) : World :=
  match w.colourSliderKey with
  | some k =>
      { w with
        listeners := w.listeners.filter (fun l => l.key ≠ k)
        eventsGroupSet := false
        fields := Function.update w.fields fid { w.fields fid with disposed := true } }
  | none =>
      { w with
        eventsGroupSet := false
        fields := Function.update w.fields fid { w.fields fid with disposed := true } }

/-- Well-formedness of the listener registry: listeners only target
sliders that have been allocated. -/
def WFListeners (w : World) : Prop :=
  ∀ l ∈ w.listeners, l.target < w.nextSliderId

/-- A field as just constructed with initial value `v` and no
min/max/precision. -/
def plainField (v : JSVal) : Field :=
  fieldNumberSliderCtor v .undefined .undefined .undefined

/-- An initial world: freshly constructed fields, no sliders, no
listeners, nothing shown. -/
def initialWorld (f : ℕ → Field) : World :=
  { fields := f
    sliders := fun _ => freshSlider
    nextSliderId := 0
    listeners := []
    nextKey := 0
    numberSliderKey := none
    colourSliderKey := none
    dropdownContent := []
    eventsGroupSet := false }

/-- A constructor input that is an actual JavaScript value in the
modelled number space: any non-finite-number input (strings, `undefined`,
NaN, the infinities), or a finite number with a finite decimal expansion
of at most 1099 fractional digits.  Every IEEE-754 double satisfies this
(the smallest subnormal needs 1074 fractional digits); the rationals it
excludes, such as `1/3`, correspond to no JavaScript number at all. -/
def RepresentableVal : JSVal → Prop
  | .num q => (decDigits q).isSome = true
  | _ => True

/-- The field values reachable in a `FieldNumberSlider` constructed with
the given arguments: the value set by the constructor, and the value
committed by any later slider change (the callback commits
`Number.parseFloat(value || 0).toFixed(1)` for a non-null event value). -/
inductive ReachableValue (v m M p : JSVal) : String → Prop where
  | init : ReachableValue v m M p (fieldNumberSliderCtor v m M p).value
  | slide (s : String) (x : ℚ) :
      ReachableValue v m M p s →
      ReachableValue v m M p (toFixed1 (if x = 0 then 0 else x))

/-- The claimed reading of C4's case split, made precise: a value is
absent when it is `undefined` or the empty string (no value supplied),
and numeric when it coerces to an actual number (`ToNumber` is not NaN). -/
def isAbsentVal (v : JSVal) : Prop :=
  v = .undefined ∨ v = .str ""

/-- A value is numeric when JavaScript number coercion yields a number. -/
def isNumericVal (v : JSVal) : Prop :=
  jsToNumber v ≠ .nan

instance (v : JSVal) : Decidable (isAbsentVal v) := by
  unfold isAbsentVal; infer_instance

instance (v : JSVal) : Decidable (isNumericVal v) := by
  unfold isNumericVal; infer_instance

/-- A field whose overlay is open on slider `0`, with the given committed
value and a synchronised readout. -/
def openField (v : String) : Field :=
  { value := v
    argTypes := ["number"]
    restrictor := ⟨.undefined, .undefined, .undefined⟩
    valueSlider := some 0
    readoutText := some v
    disposed := false }

/-- A world with a single open editor: field `0` has committed value
`"0.5"` and its slider `0` is rendered with one registered listener. -/
def openWorld : World :=
  { fields := fun _ => openField "0.5"
    sliders := fun _ => freshSlider
    nextSliderId := 1
    listeners := [⟨0, 0, 0⟩]
    nextKey := 1
    numberSliderKey := some 0
    colourSliderKey := none
    dropdownContent := [.label 0, .sliderEl 0]
    eventsGroupSet := false }

/-- Like `openWorld` but field `0` has committed value `"0"` (the
zero-value activation scenario). -/
def zeroOpenWorld : World :=
  { openWorld with fields := fun _ => openField "0" }

/-- A pristine world: every field freshly constructed with no arguments,
nothing opened yet. -/
def baseWorld : World :=
  initialWorld (fun _ => plainField .undefined)

/-! ### Character and digit-list lemmas -/

theorem digitChar_isDigit {n : ℕ} (h : n < 10) : (Nat.digitChar n).isDigit = true := by
  interval_cases n <;> decide

theorem isDigit_not_space {c : Char} (h : c.isDigit = true) : isSpaceChar c = false := by
  simp only [isSpaceChar, Bool.or_eq_false_iff, decide_eq_false_iff_not]
  refine ⟨⟨⟨?_, ?_⟩, ?_⟩, ?_⟩ <;> rintro rfl <;> exact absurd h (by decide)

theorem isDigit_ne_dot {c : Char} (h : c.isDigit = true) : c ≠ '.' := by
  rintro rfl; exact absurd h (by decide)

theorem isDigit_ne_minus {c : Char} (h : c.isDigit = true) : c ≠ '-' := by
  rintro rfl; exact absurd h (by decide)

theorem isDigit_ne_plus {c : Char} (h : c.isDigit = true) : c ≠ '+' := by
  rintro rfl; exact absurd h (by decide)

theorem natDigits_ne_nil (n : ℕ) : natDigits n ≠ [] := by
  rw [natDigits]
  split
  · simp
  · simp

theorem natDigits_all_digit (n : ℕ) : ∀ c ∈ natDigits n, c.isDigit = true := by
  induction n using Nat.strong_induction_on with
  | _ n ih =>
    rw [natDigits]
    split
    · intro c hc
      simp only [List.mem_singleton] at hc
      subst hc
      exact digitChar_isDigit (by omega)
    · intro c hc
      rcases List.mem_append.mp hc with h | h
      · exact ih (n / 10) (Nat.div_lt_self (by omega) (by omega)) c h
      · simp only [List.mem_singleton] at h
        subst h
        exact digitChar_isDigit (Nat.mod_lt _ (by omega))

/-! ### takeWhile / dropWhile / trim lemmas -/

theorem takeWhile_append_of_all {p : Char → Bool} :
    ∀ xs l : List Char, (∀ x ∈ xs, p x = true) →
      List.takeWhile p (xs ++ l) = xs ++ List.takeWhile p l := by
  intro xs
  induction xs with
  | nil => intro l _; rfl
  | cons x t ih =>
      intro l h
      have hx : p x = true := h x (List.mem_cons_self x t)
      simp only [List.cons_append, List.takeWhile_cons, hx, if_true]
      rw [ih l (fun a ha => h a (List.mem_cons_of_mem x ha))]

theorem dropWhile_append_of_all {p : Char → Bool} :
    ∀ xs l : List Char, (∀ x ∈ xs, p x = true) →
      List.dropWhile p (xs ++ l) = List.dropWhile p l := by
  intro xs
  induction xs with
  | nil => intro l _; rfl
  | cons x t ih =>
      intro l h
      have hx : p x = true := h x (List.mem_cons_self x t)
      simp only [List.cons_append, List.dropWhile_cons, hx, if_true]
      exact ih l (fun a ha => h a (List.mem_cons_of_mem x ha))

theorem dropWhile_eq_self_of_head {p : Char → Bool} {l : List Char}
    (h : ∀ c ∈ l.head?, p c = false) : List.dropWhile p l = l := by
  cases l with
  | nil => rfl
  | cons c t => simp [List.dropWhile_cons, h c rfl]

theorem trimChars_eq_self {l : List Char} (h : ∀ c ∈ l, isSpaceChar c = false) :
    trimChars l = l := by
  have h1 : List.dropWhile isSpaceChar l = l :=
    dropWhile_eq_self_of_head (fun c hc => h c (List.mem_of_mem_head? hc))
  have h2 : List.dropWhile isSpaceChar l.reverse = l.reverse :=
    dropWhile_eq_self_of_head
      (fun c hc => h c (List.mem_reverse.mp (List.mem_of_mem_head? hc)))
  unfold trimChars
  rw [h1, h2, List.reverse_reverse]

/-! ### Parse-success lemmas -/

theorem strictUnsigned_all_digits {l : List Char} (hne : l ≠ [])
    (h : ∀ c ∈ l, c.isDigit = true) :
    strictUnsigned l = .num (digitsToNat l) := by
  have ht : List.takeWhile Char.isDigit l = l := by
    have := takeWhile_append_of_all l [] h
    simpa using this
  have hd : List.dropWhile Char.isDigit l = [] := by
    have := dropWhile_append_of_all l [] h
    simpa using this
  have hInf : l ≠ infinityChars := by
    intro heq
    have hI : ('I' : Char) ∈ l := by rw [heq]; decide
    exact absurd (h 'I' hI) (by decide)
  unfold strictUnsigned
  rw [if_neg hInf, hd, ht, if_pos rfl, if_neg hne]

theorem strictUnsigned_digits_dot_digits {ip fp : List Char}
    (hip : ∀ c ∈ ip, c.isDigit = true) (hfp : ∀ c ∈ fp, c.isDigit = true)
    (hne : ip ≠ [] ∨ fp ≠ []) :
    strictUnsigned (ip ++ '.' :: fp) =
      .num ((digitsToNat ip : ℚ) + (digitsToNat fp : ℚ) / 10 ^ fp.length) := by
  have ht : List.takeWhile Char.isDigit (ip ++ '.' :: fp) = ip := by
    rw [takeWhile_append_of_all ip _ hip]
    simp [List.takeWhile_cons]
  have hd : List.dropWhile Char.isDigit (ip ++ '.' :: fp) = '.' :: fp := by
    rw [dropWhile_append_of_all ip _ hip]
    simp [List.dropWhile_cons]
  have hInf : ip ++ '.' :: fp ≠ infinityChars := by
    intro heq
    have hdot : ('.' : Char) ∈ ip ++ '.' :: fp :=
      List.mem_append.mpr (Or.inr (List.mem_cons_self _ _))
    rw [heq] at hdot
    exact absurd hdot (by decide)
  unfold strictUnsigned
  rw [hd, ht]
  simp [List.all_eq_true.mpr hfp, hne, hInf]

theorem jsStringToNumber_append_digits_dot_digits {sgn : List Char} {ip fp : List Char}
    (hsgn : sgn = [] ∨ sgn = ['-'])
    (hip : ∀ c ∈ ip, c.isDigit = true) (hfp : ∀ c ∈ fp, c.isDigit = true)
    (hipne : ip ≠ []) :
    jsStringToNumber (String.mk (sgn ++ ip ++ '.' :: fp)) ≠ JSNum.nan := by
  have hall : ∀ c ∈ sgn ++ ip ++ '.' :: fp, isSpaceChar c = false := by
    intro c hc
    rcases List.mem_append.mp hc with hc' | hc'
    · rcases List.mem_append.mp hc' with hs | hi
      · rcases hsgn with rfl | rfl
        · simp at hs
        · simp only [List.mem_singleton] at hs; subst hs; decide
      · exact isDigit_not_space (hip c hi)
    · rcases List.mem_cons.mp hc' with hdot | hf
      · subst hdot; decide
      · exact isDigit_not_space (hfp c hf)
  have hlist : (String.mk (sgn ++ ip ++ '.' :: fp)).toList = sgn ++ ip ++ '.' :: fp := rfl
  unfold jsStringToNumber
  rw [hlist, trimChars_eq_self hall]
  obtain ⟨c0, ipt, rfl⟩ := List.exists_cons_of_ne_nil hipne
  have hc0 : c0.isDigit = true := hip c0 (List.mem_cons_self _ _)
  have hstrict :
      strictUnsigned ((c0 :: ipt) ++ '.' :: fp) =
        .num ((digitsToNat (c0 :: ipt) : ℚ) + (digitsToNat fp : ℚ) / 10 ^ fp.length) :=
    strictUnsigned_digits_dot_digits hip hfp (Or.inl (by simp))
  rcases hsgn with rfl | rfl
  · simp only [List.nil_append, List.cons_append, jsStringToNumberList]
    rw [if_neg (isDigit_ne_minus hc0), if_neg (isDigit_ne_plus hc0)]
    simp only [← List.cons_append]
    rw [hstrict]
    simp
  · simp only [List.cons_append] at hstrict
    simp only [List.singleton_append, List.cons_append, jsStringToNumberList, if_pos,
      List.nil_append]
    rw [hstrict]
    simp

theorem jsStringToNumber_append_digits {sgn : List Char} {ip : List Char}
    (hsgn : sgn = [] ∨ sgn = ['-'])
    (hip : ∀ c ∈ ip, c.isDigit = true) (hipne : ip ≠ []) :
    jsStringToNumber (String.mk (sgn ++ ip)) ≠ JSNum.nan := by
  have hall : ∀ c ∈ sgn ++ ip, isSpaceChar c = false := by
    intro c hc
    rcases List.mem_append.mp hc with hs | hi
    · rcases hsgn with rfl | rfl
      · simp at hs
      · simp only [List.mem_singleton] at hs; subst hs; decide
    · exact isDigit_not_space (hip c hi)
  have hlist : (String.mk (sgn ++ ip)).toList = sgn ++ ip := rfl
  unfold jsStringToNumber
  rw [hlist, trimChars_eq_self hall]
  obtain ⟨c0, ipt, rfl⟩ := List.exists_cons_of_ne_nil hipne
  have hc0 : c0.isDigit = true := hip c0 (List.mem_cons_self _ _)
  have hstrict : strictUnsigned (c0 :: ipt) = .num (digitsToNat (c0 :: ipt)) :=
    strictUnsigned_all_digits (by simp) hip
  rcases hsgn with rfl | rfl
  · simp only [List.nil_append, jsStringToNumberList]
    rw [if_neg (isDigit_ne_minus hc0), if_neg (isDigit_ne_plus hc0), hstrict]
    simp
  · simp only [List.singleton_append, jsStringToNumberList, if_pos]
    rw [hstrict]
    simp

/-! ### Printed numbers parse back as numbers -/

theorem jsStringToNumber_toFixed1_ne_nan (q : ℚ) :
    jsStringToNumber (toFixed1 q) ≠ JSNum.nan := by
  unfold toFixed1
  apply jsStringToNumber_append_digits_dot_digits
  · split
    · exact Or.inr rfl
    · exact Or.inl rfl
  · exact natDigits_all_digit _
  · exact natDigits_all_digit _
  · exact natDigits_ne_nil _

theorem jsStringToNumber_jsNumToString_ne_nan {q : ℚ}
    (h : (decDigits q).isSome = true) :
    jsStringToNumber (jsNumToString q) ≠ JSNum.nan := by
  obtain ⟨k, hk⟩ := Option.isSome_iff_exists.mp h
  unfold jsNumToString
  rw [hk]
  cases k with
  | zero =>
      apply jsStringToNumber_append_digits
      · split
        · exact Or.inr rfl
        · exact Or.inl rfl
      · exact natDigits_all_digit _
      · exact natDigits_ne_nil _
  | succ j =>
      apply jsStringToNumber_append_digits_dot_digits
      · split
        · exact Or.inr rfl
        · exact Or.inl rfl
      · exact natDigits_all_digit _
      · intro c hc
        rcases List.mem_append.mp hc with hz | hf
        · rw [List.eq_of_mem_replicate hz]; decide
        · exact natDigits_all_digit _ c hf
      · exact natDigits_ne_nil _

theorem jsStringToNumber_zero_ne_nan : jsStringToNumber "0" ≠ JSNum.nan := by
  decide

/-! ### Frame lemmas: which state components each operation leaves alone -/

@[simp] theorem updateDom_listeners (w : World) (fid : ℕ) :
    (updateDom w fid).listeners = w.listeners := by
  unfold updateDom; split <;> rfl

@[simp] theorem updateDom_nextSliderId (w : World) (fid : ℕ) :
    (updateDom w fid).nextSliderId = w.nextSliderId := by
  unfold updateDom; split <;> rfl

@[simp] theorem updateDom_nextKey (w : World) (fid : ℕ) :
    (updateDom w fid).nextKey = w.nextKey := by
  unfold updateDom; split <;> rfl

@[simp] theorem updateDom_numberSliderKey (w : World) (fid : ℕ) :
    (updateDom w fid).numberSliderKey = w.numberSliderKey := by
  unfold updateDom; split <;> rfl

@[simp] theorem updateDom_colourSliderKey (w : World) (fid : ℕ) :
    (updateDom w fid).colourSliderKey = w.colourSliderKey := by
  unfold updateDom; split <;> rfl

@[simp] theorem updateDom_dropdownContent (w : World) (fid : ℕ) :
    (updateDom w fid).dropdownContent = w.dropdownContent := by
  unfold updateDom; split <;> rfl

@[simp] theorem updateDom_eventsGroupSet (w : World) (fid : ℕ) :
    (updateDom w fid).eventsGroupSet = w.eventsGroupSet := by
  unfold updateDom; split <;> rfl

@[simp] theorem updateDom_sliders (w : World) (fid : ℕ) :
    (updateDom w fid).sliders = w.sliders := by
  unfold updateDom; split <;> rfl

@[simp] theorem updateDom_fields_value (w : World) (fid fid' : ℕ) :
    ((updateDom w fid).fields fid').value = (w.fields fid').value := by
  unfold updateDom
  split
  · simp only [Function.update_apply]
    split
    · next h => subst h; rfl
    · rfl
  · rfl

@[simp] theorem updateDom_fields_valueSlider (w : World) (fid fid' : ℕ) :
    ((updateDom w fid).fields fid').valueSlider = (w.fields fid').valueSlider := by
  unfold updateDom
  split
  · simp only [Function.update_apply]
    split
    · next h => subst h; rfl
    · rfl
  · rfl

@[simp] theorem updateDom_fields_disposed (w : World) (fid fid' : ℕ) :
    ((updateDom w fid).fields fid').disposed = (w.fields fid').disposed := by
  unfold updateDom
  split
  · simp only [Function.update_apply]
    split
    · next h => subst h; rfl
    · rfl
  · rfl

@[simp] theorem sliderCallback_listeners (w : World) (fid : ℕ) (ev : Option ℚ) :
    (sliderCallback w fid ev).listeners = w.listeners := by
  cases ev with
  | none => rfl
  | some x => simp [sliderCallback]

@[simp] theorem sliderCallback_nextSliderId (w : World) (fid : ℕ) (ev : Option ℚ) :
    (sliderCallback w fid ev).nextSliderId = w.nextSliderId := by
  cases ev with
  | none => rfl
  | some x => simp [sliderCallback]

@[simp] theorem sliderCallback_nextKey (w : World) (fid : ℕ) (ev : Option ℚ) :
    (sliderCallback w fid ev).nextKey = w.nextKey := by
  cases ev with
  | none => rfl
  | some x => simp [sliderCallback]

@[simp] theorem sliderCallback_numberSliderKey (w : World) (fid : ℕ) (ev : Option ℚ) :
    (sliderCallback w fid ev).numberSliderKey = w.numberSliderKey := by
  cases ev with
  | none => rfl
  | some x => simp [sliderCallback]

@[simp] theorem sliderCallback_colourSliderKey (w : World) (fid : ℕ) (ev : Option ℚ) :
    (sliderCallback w fid ev).colourSliderKey = w.colourSliderKey := by
  cases ev with
  | none => rfl
  | some x => simp [sliderCallback]

@[simp] theorem sliderCallback_dropdownContent (w : World) (fid : ℕ) (ev : Option ℚ) :
    (sliderCallback w fid ev).dropdownContent = w.dropdownContent := by
  cases ev with
  | none => rfl
  | some x => simp [sliderCallback]

@[simp] theorem sliderCallback_eventsGroupSet (w : World) (fid : ℕ) (ev : Option ℚ) :
    (sliderCallback w fid ev).eventsGroupSet = w.eventsGroupSet := by
  cases ev with
  | none => rfl
  | some x => simp [sliderCallback]

@[simp] theorem sliderCallback_sliders (w : World) (fid : ℕ) (ev : Option ℚ) :
    (sliderCallback w fid ev).sliders = w.sliders := by
  cases ev with
  | none => rfl
  | some x => simp [sliderCallback]

@[simp] theorem sliderCallback_fields_valueSlider (w : World) (fid : ℕ) (ev : Option ℚ)
    (fid' : ℕ) :
    ((sliderCallback w fid ev).fields fid').valueSlider = (w.fields fid').valueSlider := by
  cases ev with
  | none => rfl
  | some x =>
      simp only [sliderCallback, updateDom_fields_valueSlider, Function.update_apply]
      split
      · next h => subst h; rfl
      · rfl

@[simp] theorem sliderCallback_fields_disposed (w : World) (fid : ℕ) (ev : Option ℚ)
    (fid' : ℕ) :
    ((sliderCallback w fid ev).fields fid').disposed = (w.fields fid').disposed := by
  cases ev with
  | none => rfl
  | some x =>
      simp only [sliderCallback, updateDom_fields_disposed, Function.update_apply]
      split
      · next h => subst h; rfl
      · rfl

theorem fireChange_foldl_listeners (sid : ℕ) (L : List ListenerEntry) :
    ∀ w : World,
      (L.foldl (fun w' l => sliderCallback w' l.fieldId (some ((w'.sliders sid).value))) w).listeners
        = w.listeners := by
  induction L with
  | nil => intro w; rfl
  | cons a t ih => intro w; rw [List.foldl_cons, ih, sliderCallback_listeners]

@[simp] theorem fireChange_listeners (w : World) (sid : ℕ) :
    (fireChange w sid).listeners = w.listeners :=
  fireChange_foldl_listeners sid _ w

theorem fireChange_foldl_sliders (sid : ℕ) (L : List ListenerEntry) :
    ∀ w : World,
      (L.foldl (fun w' l => sliderCallback w' l.fieldId (some ((w'.sliders sid).value))) w).sliders
        = w.sliders := by
  induction L with
  | nil => intro w; rfl
  | cons a t ih => intro w; rw [List.foldl_cons, ih, sliderCallback_sliders]

@[simp] theorem fireChange_sliders (w : World) (sid : ℕ) :
    (fireChange w sid).sliders = w.sliders :=
  fireChange_foldl_sliders sid _ w

theorem fireChange_foldl_nextSliderId (sid : ℕ) (L : List ListenerEntry) :
    ∀ w : World,
      (L.foldl (fun w' l => sliderCallback w' l.fieldId (some ((w'.sliders sid).value))) w).nextSliderId
        = w.nextSliderId := by
  induction L with
  | nil => intro w; rfl
  | cons a t ih => intro w; rw [List.foldl_cons, ih, sliderCallback_nextSliderId]

@[simp] theorem fireChange_nextSliderId (w : World) (sid : ℕ) :
    (fireChange w sid).nextSliderId = w.nextSliderId :=
  fireChange_foldl_nextSliderId sid _ w

theorem fireChange_foldl_nextKey (sid : ℕ) (L : List ListenerEntry) :
    ∀ w : World,
      (L.foldl (fun w' l => sliderCallback w' l.fieldId (some ((w'.sliders sid).value))) w).nextKey
        = w.nextKey := by
  induction L with
  | nil => intro w; rfl
  | cons a t ih => intro w; rw [List.foldl_cons, ih, sliderCallback_nextKey]

@[simp] theorem fireChange_nextKey (w : World) (sid : ℕ) :
    (fireChange w sid).nextKey = w.nextKey :=
  fireChange_foldl_nextKey sid _ w

theorem fireChange_foldl_numberSliderKey (sid : ℕ) (L : List ListenerEntry) :
    ∀ w : World,
      (L.foldl (fun w' l => sliderCallback w' l.fieldId (some ((w'.sliders sid).value))) w).numberSliderKey
        = w.numberSliderKey := by
  induction L with
  | nil => intro w; rfl
  | cons a t ih => intro w; rw [List.foldl_cons, ih, sliderCallback_numberSliderKey]

@[simp] theorem fireChange_numberSliderKey (w : World) (sid : ℕ) :
    (fireChange w sid).numberSliderKey = w.numberSliderKey :=
  fireChange_foldl_numberSliderKey sid _ w

theorem fireChange_foldl_colourSliderKey (sid : ℕ) (L : List ListenerEntry) :
    ∀ w : World,
      (L.foldl (fun w' l => sliderCallback w' l.fieldId (some ((w'.sliders sid).value))) w).colourSliderKey
        = w.colourSliderKey := by
  induction L with
  | nil => intro w; rfl
  | cons a t ih => intro w; rw [List.foldl_cons, ih, sliderCallback_colourSliderKey]

@[simp] theorem fireChange_colourSliderKey (w : World) (sid : ℕ) :
    (fireChange w sid).colourSliderKey = w.colourSliderKey :=
  fireChange_foldl_colourSliderKey sid _ w

theorem fireChange_foldl_dropdownContent (sid : ℕ) (L : List ListenerEntry) :
    ∀ w : World,
      (L.foldl (fun w' l => sliderCallback w' l.fieldId (some ((w'.sliders sid).value))) w).dropdownContent
        = w.dropdownContent := by
  induction L with
  | nil => intro w; rfl
  | cons a t ih => intro w; rw [List.foldl_cons, ih, sliderCallback_dropdownContent]

@[simp] theorem fireChange_dropdownContent (w : World) (sid : ℕ) :
    (fireChange w sid).dropdownContent = w.dropdownContent :=
  fireChange_foldl_dropdownContent sid _ w

theorem fireChange_foldl_fields_valueSlider (sid : ℕ) (L : List ListenerEntry) :
    ∀ (w : World) (fid' : ℕ),
      ((L.foldl (fun w' l => sliderCallback w' l.fieldId (some ((w'.sliders sid).value))) w).fields fid').valueSlider
        = (w.fields fid').valueSlider := by
  induction L with
  | nil => intro w _; rfl
  | cons a t ih => intro w fid'; rw [List.foldl_cons, ih, sliderCallback_fields_valueSlider]

@[simp] theorem fireChange_fields_valueSlider (w : World) (sid fid' : ℕ) :
    ((fireChange w sid).fields fid').valueSlider = (w.fields fid').valueSlider :=
  fireChange_foldl_fields_valueSlider sid _ w fid'

theorem fireChange_foldl_fields_disposed (sid : ℕ) (L : List ListenerEntry) :
    ∀ (w : World) (fid' : ℕ),
      ((L.foldl (fun w' l => sliderCallback w' l.fieldId (some ((w'.sliders sid).value))) w).fields fid').disposed
        = (w.fields fid').disposed := by
  induction L with
  | nil => intro w _; rfl
  | cons a t ih => intro w fid'; rw [List.foldl_cons, ih, sliderCallback_fields_disposed]

@[simp] theorem fireChange_fields_disposed (w : World) (sid fid' : ℕ) :
    ((fireChange w sid).fields fid').disposed = (w.fields fid').disposed :=
  fireChange_foldl_fields_disposed sid _ w fid'

@[simp] theorem sliderSetValue_listeners (w : World) (sid : ℕ) (v : ℚ) :
    (sliderSetValue w sid v).listeners = w.listeners := by
  unfold sliderSetValue
  split
  · rfl
  · rw [fireChange_listeners]

@[simp] theorem sliderSetValue_nextSliderId (w : World) (sid : ℕ) (v : ℚ) :
    (sliderSetValue w sid v).nextSliderId = w.nextSliderId := by
  unfold sliderSetValue
  split
  · rfl
  · rw [fireChange_nextSliderId]

@[simp] theorem sliderSetValue_nextKey (w : World) (sid : ℕ) (v : ℚ) :
    (sliderSetValue w sid v).nextKey = w.nextKey := by
  unfold sliderSetValue
  split
  · rfl
  · rw [fireChange_nextKey]

@[simp] theorem sliderSetValue_numberSliderKey (w : World) (sid : ℕ) (v : ℚ) :
    (sliderSetValue w sid v).numberSliderKey = w.numberSliderKey := by
  unfold sliderSetValue
  split
  · rfl
  · rw [fireChange_numberSliderKey]

@[simp] theorem sliderSetValue_colourSliderKey (w : World) (sid : ℕ) (v : ℚ) :
    (sliderSetValue w sid v).colourSliderKey = w.colourSliderKey := by
  unfold sliderSetValue
  split
  · rfl
  · rw [fireChange_colourSliderKey]

@[simp] theorem sliderSetValue_dropdownContent (w : World) (sid : ℕ) (v : ℚ) :
    (sliderSetValue w sid v).dropdownContent = w.dropdownContent := by
  unfold sliderSetValue
  split
  · rfl
  · rw [fireChange_dropdownContent]

@[simp] theorem sliderSetValue_fields_valueSlider (w : World) (sid : ℕ) (v : ℚ) (fid' : ℕ) :
    ((sliderSetValue w sid v).fields fid').valueSlider = (w.fields fid').valueSlider := by
  unfold sliderSetValue
  split
  · rfl
  · rw [fireChange_fields_valueSlider]

@[simp] theorem sliderSetValue_fields_disposed (w : World) (sid : ℕ) (v : ℚ) (fid' : ℕ) :
    ((sliderSetValue w sid v).fields fid').disposed = (w.fields fid').disposed := by
  unfold sliderSetValue
  split
  · rfl
  · rw [fireChange_fields_disposed]

theorem sliderSetValue_sliders_config (w : World) (sid : ℕ) (v : ℚ) (sid' : ℕ) :
    ((sliderSetValue w sid v).sliders sid').config = (w.sliders sid').config := by
  unfold sliderSetValue
  split
  · rfl
  · rw [fireChange_sliders]
    simp only [Function.update_apply]
    split
    · next h => subst h; rfl
    · rfl

@[simp] theorem sliderSetValue_sliders_minimum (w : World) (sid : ℕ) (v : ℚ) (sid' : ℕ) :
    ((sliderSetValue w sid v).sliders sid').minimum = (w.sliders sid').minimum := by
  unfold sliderSetValue
  split
  · rfl
  · rw [fireChange_sliders]
    simp only [Function.update_apply]
    split
    · next h => subst h; rfl
    · rfl

@[simp] theorem sliderSetValue_sliders_maximum (w : World) (sid : ℕ) (v : ℚ) (sid' : ℕ) :
    ((sliderSetValue w sid v).sliders sid').maximum = (w.sliders sid').maximum := by
  unfold sliderSetValue
  split
  · rfl
  · rw [fireChange_sliders]
    simp only [Function.update_apply]
    split
    · next h => subst h; rfl
    · rfl

@[simp] theorem updateSliderHandles_listeners (w : World) (fid : ℕ) :
    (updateSliderHandles w fid).listeners = w.listeners := by
  unfold updateSliderHandles
  split
  · rfl
  · split
    · rfl
    · rfl
    · split <;> simp

@[simp] theorem updateSliderHandles_nextSliderId (w : World) (fid : ℕ) :
    (updateSliderHandles w fid).nextSliderId = w.nextSliderId := by
  unfold updateSliderHandles
  split
  · rfl
  · split
    · rfl
    · rfl
    · split <;> simp

@[simp] theorem updateSliderHandles_nextKey (w : World) (fid : ℕ) :
    (updateSliderHandles w fid).nextKey = w.nextKey := by
  unfold updateSliderHandles
  split
  · rfl
  · split
    · rfl
    · rfl
    · split <;> simp

@[simp] theorem updateSliderHandles_numberSliderKey (w : World) (fid : ℕ) :
    (updateSliderHandles w fid).numberSliderKey = w.numberSliderKey := by
  unfold updateSliderHandles
  split
  · rfl
  · split
    · rfl
    · rfl
    · split <;> simp

@[simp] theorem updateSliderHandles_colourSliderKey (w : World) (fid : ℕ) :
    (updateSliderHandles w fid).colourSliderKey = w.colourSliderKey := by
  unfold updateSliderHandles
  split
  · rfl
  · split
    · rfl
    · rfl
    · split <;> simp

@[simp] theorem updateSliderHandles_dropdownContent (w : World) (fid : ℕ) :
    (updateSliderHandles w fid).dropdownContent = w.dropdownContent := by
  unfold updateSliderHandles
  split
  · rfl
  · split
    · rfl
    · rfl
    · split <;> simp

@[simp] theorem updateSliderHandles_fields_valueSlider (w : World) (fid fid' : ℕ) :
    ((updateSliderHandles w fid).fields fid').valueSlider = (w.fields fid').valueSlider := by
  unfold updateSliderHandles
  split
  · rfl
  · split
    · rfl
    · rfl
    · split <;> simp

@[simp] theorem updateSliderHandles_fields_disposed (w : World) (fid fid' : ℕ) :
    ((updateSliderHandles w fid).fields fid').disposed = (w.fields fid').disposed := by
  unfold updateSliderHandles
  split
  · rfl
  · split
    · rfl
    · rfl
    · split <;> simp

theorem updateSliderHandles_sliders_config (w : World) (fid sid' : ℕ) :
    ((updateSliderHandles w fid).sliders sid').config = (w.sliders sid').config := by
  unfold updateSliderHandles
  split
  · rfl
  · split
    · rfl
    · rfl
    · split <;> simp [sliderSetValue_sliders_config]

/-! ### What one `showEditor_` call does to each component -/

@[simp] theorem showEditor_listeners (w : World) (fid : ℕ) :
    (showEditor w fid).listeners
      = w.listeners ++ [⟨w.nextKey, w.nextSliderId, fid⟩] := by
  simp [showEditor]

@[simp] theorem showEditor_nextSliderId (w : World) (fid : ℕ) :
    (showEditor w fid).nextSliderId = w.nextSliderId + 1 := by
  simp [showEditor]

@[simp] theorem showEditor_nextKey (w : World) (fid : ℕ) :
    (showEditor w fid).nextKey = w.nextKey + 1 := by
  simp [showEditor]

@[simp] theorem showEditor_numberSliderKey (w : World) (fid : ℕ) :
    (showEditor w fid).numberSliderKey = some w.nextKey := by
  simp [showEditor]

@[simp] theorem showEditor_colourSliderKey (w : World) (fid : ℕ) :
    (showEditor w fid).colourSliderKey = w.colourSliderKey := by
  simp [showEditor]

@[simp] theorem showEditor_dropdownContent (w : World) (fid : ℕ) :
    (showEditor w fid).dropdownContent
      = [DomItem.label fid, DomItem.sliderEl w.nextSliderId] := by
  simp [showEditor]

@[simp] theorem showEditor_fields_valueSlider_self (w : World) (fid : ℕ) :
    ((showEditor w fid).fields fid).valueSlider = some w.nextSliderId := by
  simp [showEditor]

theorem showEditor_slider_config (w : World) (fid : ℕ) :
    ((showEditor w fid).sliders w.nextSliderId).config = (-1, 1, 1 / 10, 1 / 10, true) := by
  unfold showEditor
  rw [updateDom_sliders, updateSliderHandles_sliders_config]
  simp [freshSlider, Slider.config]

/-! ### What `dispose` does -/

@[simp] theorem dispose_colourSliderKey (w : World) (fid : ℕ) :
    (dispose w fid).colourSliderKey = w.colourSliderKey := by
  cases hc : w.colourSliderKey <;> simp [dispose, hc]

theorem dispose_listeners_of_colour_none (w : World) (fid : ℕ)
    (hc : w.colourSliderKey = none) : (dispose w fid).listeners = w.listeners := by
  simp [dispose, hc]

@[simp] theorem dispose_fields_disposed_self (w : World) (fid : ℕ) :
    ((dispose w fid).fields fid).disposed = true := by
  cases hc : w.colourSliderKey <;> simp [dispose, hc]

/-! ### Helper computations -/

theorem sliderSetValue_noop (w : World) (sid : ℕ) (v : ℚ)
    (h : max (w.sliders sid).minimum (min (w.sliders sid).maximum v) = (w.sliders sid).value) :
    sliderSetValue w sid v = w := by
  unfold sliderSetValue
  rw [if_pos h]

theorem sliderSetValue_effective (w : World) (sid : ℕ) (v : ℚ)
    (h : max (w.sliders sid).minimum (min (w.sliders sid).maximum v) ≠ (w.sliders sid).value) :
    ((sliderSetValue w sid v).sliders sid).value
        = max (w.sliders sid).minimum (min (w.sliders sid).maximum v) ∧
    ((sliderSetValue w sid v).sliders sid).handlePos
        = some (max (w.sliders sid).minimum (min (w.sliders sid).maximum v)) := by
  unfold sliderSetValue
  rw [if_neg h]
  constructor <;> rw [fireChange_sliders] <;> simp

theorem parseFloatStr_zero : parseFloatStr "0" = JSNum.num 0 := by
  have h1 : parseFloatStr "0"
      = JSNum.num ((digitsToNat ['0'] : ℚ)
          + (digitsToNat ([] : List Char) : ℚ) / 10 ^ ([] : List Char).length) := rfl
  rw [h1]
  have h2 : digitsToNat ['0'] = 0 := rfl
  have h3 : digitsToNat ([] : List Char) = 0 := rfl
  rw [h2, h3]
  norm_num

theorem decDigits_zero : decDigits 0 = some 0 := by
  have h : ((0 : ℚ) * 10 ^ (0 : ℕ)).den = 1 := by norm_num
  simp [decDigits, decDigitsAux, h]

theorem jsNumToString_zero : jsNumToString 0 = "0" := by
  unfold jsNumToString
  rw [decDigits_zero]
  have h0 : (0 : ℚ).num.natAbs = 0 := by norm_num
  rw [h0]
  have hn : natDigits 0 = ['0'] := by
    rw [natDigits]
    decide
  rw [hn]
  norm_num

/-! ### C1 — a null slider event value -/

/-- **C1** (corrected): the claim says a null event value commits `"0.0"`;
in the code the callback body is guarded by `value !== null`, so a null
value commits nothing.  At the concrete world `openWorld` (field value
`"0.5"`, overlay open) the callback with a null event value leaves the
committed value at `"0.5"`, not `"0.0"`. -/
theorem c1_null_commits_zero_counterexample :
    ((sliderCallback openWorld 0 none).fields 0).value ≠ "0.0" := by
  decide

/-- **C1** (amended): for every slider change event whose event value is
null, the callback produced by `sliderCallbackFactory_` commits nothing —
the entire world (field value and readout included) is unchanged. -/
theorem c1_null_event_is_ignored (w : World) (fid : ℕ) :
    sliderCallback w fid none = w :=
  rfl

/-! ### C2 — dispose without activation -/

/-- **C2**: for every field on which `showEditor_` was never called (its
slider reference is unset), `dispose` runs to completion — every step of
the modelled `dispose` is total, matching the source, where the key read
on `Blockly.FieldColourSlider` tolerates an unset key and
`goog.events.unlistenByKey` tolerates stale keys — and it is idempotent:
a second `dispose` produces exactly the same world, with the field left
disposed. -/
theorem c2_dispose_without_activation_idempotent (w : World) (fid : ℕ)
    (_h : (w.fields fid).valueSlider = none) :
    ((dispose w fid).fields fid).disposed = true ∧
    dispose (dispose w fid) fid = dispose w fid := by
  constructor
  · exact dispose_fields_disposed_self w fid
  · cases hc : w.colourSliderKey <;>
      simp [dispose, hc, Function.update_idem, List.filter_filter, Function.update_same]

/-- **C2** witness at a concrete never-activated field. -/
theorem c2_witness :
    (baseWorld.fields 0).valueSlider = none ∧
    (((dispose baseWorld 0).fields 0).disposed = true ∧
      dispose (dispose baseWorld 0) 0 = dispose baseWorld 0) :=
  ⟨rfl, c2_dispose_without_activation_idempotent baseWorld 0 rfl⟩

/-! ### C5 — a non-null slider event value -/

/-- **C5**: for every non-null slider event value `x`, the callback
commits `x` parsed as a float and formatted to one decimal place
(`toFixed(1)`), and — the overlay being open — the readout text equals
that same formatted string. -/
theorem c5_commit_and_readout (w : World) (fid : ℕ) (x : ℚ)
    (h : (w.fields fid).valueSlider.isSome = true) :
    ((sliderCallback w fid (some x)).fields fid).value = toFixed1 x ∧
    ((sliderCallback w fid (some x)).fields fid).readoutText = some (toFixed1 x) := by
  have hx : toFixed1 (if x = 0 then 0 else x) = toFixed1 x := by
    rcases eq_or_ne x 0 with rfl | hne
    · rw [if_pos rfl]
    · rw [if_neg hne]
  constructor <;>
    simp [sliderCallback, updateDom, Field.setValue, Field.getText, h, hx,
      Function.update_same]

/-- **C5** witness: committing the concrete value `1/2` in `openWorld`. -/
theorem c5_witness :
    (openWorld.fields 0).valueSlider.isSome = true ∧
    (((sliderCallback openWorld 0 (some (1 / 2))).fields 0).value = toFixed1 (1 / 2) ∧
      ((sliderCallback openWorld 0 (some (1 / 2))).fields 0).readoutText
        = some (toFixed1 (1 / 2))) :=
  ⟨rfl, c5_commit_and_readout openWorld 0 (1 / 2) rfl⟩

/-! ### C8 — activation clears the overlay and fixes the slider set-up -/

theorem showEditor_content (w : World) (fid : ℕ) :
    (showEditor w fid).dropdownContent
      = [DomItem.label fid, DomItem.sliderEl w.nextSliderId] :=
  showEditor_dropdownContent w fid

/-- **C8**: on every activation the overlay content ends up being exactly
the freshly built label and slider (whatever content was there before was
cleared first), and the slider is configured with minimum `-1`, maximum
`1`, step `0.1`, unit increment `0.1` and move-to-point dragging enabled,
for every field — regardless of the min/max/precision the field was
constructed with. -/
theorem c8_editor_configuration (w : World) (fid : ℕ) :
    (showEditor w fid).dropdownContent
        = [DomItem.label fid, DomItem.sliderEl w.nextSliderId] ∧
    ((showEditor w fid).sliders w.nextSliderId).config = (-1, 1, 1 / 10, 1 / 10, true) :=
  ⟨showEditor_content w fid, showEditor_slider_config w fid⟩

/-! ### C9 — min/max/precision do not interfere -/

/-- **C9**: noninterference of the bounds parameters: the constructed
field's value is identical for any two choices of `opt_min` / `opt_max` /
`opt_precision` (they only enter the typable-character restrictor), and
the slider built at activation always has the fixed configuration
`(-1, 1, 0.1, 0.1, move-to-point)`, so its range never depends on them
either. -/
theorem c9_bounds_noninterference (v m1 M1 p1 m2 M2 p2 : JSVal) :
    (fieldNumberSliderCtor v m1 M1 p1).value = (fieldNumberSliderCtor v m2 M2 p2).value ∧
    (fieldNumberSliderCtor v m1 M1 p1).restrictor = getNumRestrictor m1 M1 p1 ∧
    ∀ w fid, ((showEditor w fid).sliders w.nextSliderId).config
      = (-1, 1, 1 / 10, 1 / 10, true) :=
  ⟨rfl, rfl, fun w fid => showEditor_slider_config w fid⟩

/-! ### C10 — the listener key is class-level state -/

/-- **C10**: the slider change-listener key is one class-level variable
shared by all instances (a single `numberSliderKey` component of the
world, mirroring `Blockly.FieldNumberSlider.valueChangeEventKey_`): after
`A.showEditor_` followed by `B.showEditor_` it holds exactly B's key
(`w.nextKey + 1`), not A's key (`w.nextKey`), and A's listener is still
registered; and `dispose` — which only ever consults
`Blockly.FieldColourSlider`'s key, here unset — never detaches A's
still-registered listener, whichever field it is called on. -/
theorem c10_class_level_listener_key (w : World) (fA fB : ℕ)
    (hc : w.colourSliderKey = none) :
    (showEditor (showEditor w fA) fB).numberSliderKey = some (w.nextKey + 1) ∧
    some (w.nextKey + 1) ≠ some w.nextKey ∧
    (⟨w.nextKey, w.nextSliderId, fA⟩ : ListenerEntry)
        ∈ (showEditor (showEditor w fA) fB).listeners ∧
    ∀ fid, (⟨w.nextKey, w.nextSliderId, fA⟩ : ListenerEntry)
        ∈ (dispose (showEditor (showEditor w fA) fB) fid).listeners := by
  have hmem : (⟨w.nextKey, w.nextSliderId, fA⟩ : ListenerEntry)
      ∈ (showEditor (showEditor w fA) fB).listeners := by
    simp
  refine ⟨by simp, by simp, hmem, ?_⟩
  intro fid
  rw [dispose_listeners_of_colour_none _ fid (by simp [hc])]
  exact hmem

/-- **C10** witness: two fresh fields in the pristine world. -/
theorem c10_witness :
    baseWorld.colourSliderKey = none ∧
    ((showEditor (showEditor baseWorld 0) 1).numberSliderKey
        = some (baseWorld.nextKey + 1) ∧
      some (baseWorld.nextKey + 1) ≠ some baseWorld.nextKey ∧
      (⟨baseWorld.nextKey, baseWorld.nextSliderId, 0⟩ : ListenerEntry)
          ∈ (showEditor (showEditor baseWorld 0) 1).listeners ∧
      ∀ fid, (⟨baseWorld.nextKey, baseWorld.nextSliderId, 0⟩ : ListenerEntry)
          ∈ (dispose (showEditor (showEditor baseWorld 0) 1) fid).listeners) :=
  ⟨rfl, c10_class_level_listener_key baseWorld 0 1 rfl⟩

/-! ### C3 — re-opening the editor leaves one listener on the live slider -/

/-- **C3**: after two `showEditor_` calls in succession, exactly one
registered listener is attached to the currently rendered slider (the
listener from the first opening targets the discarded first slider, which
no user event can reach), so a single change event on the current slider
runs the committed-change path (`sliderCallback`, i.e. `setValue` plus
readout refresh) exactly once, with no duplicate callback from the first
opening.  `WFListeners` states the registry invariant that listeners only
target already-created sliders. -/
theorem c3_reopen_single_active_listener (w : World) (fid : ℕ)
    (hWF : WFListeners w) :
    ((showEditor (showEditor w fid) fid).fields fid).valueSlider
        = some (showEditor w fid).nextSliderId ∧
    (showEditor (showEditor w fid) fid).listeners.filter
        (fun l => l.target = (showEditor w fid).nextSliderId)
      = [⟨(showEditor w fid).nextKey, (showEditor w fid).nextSliderId, fid⟩] ∧
    fireChange (showEditor (showEditor w fid) fid) (showEditor w fid).nextSliderId
      = sliderCallback (showEditor (showEditor w fid) fid) fid
          (some (((showEditor (showEditor w fid) fid).sliders
            ((showEditor w fid).nextSliderId)).value)) := by
  have hfilter :
      (showEditor (showEditor w fid) fid).listeners.filter
          (fun l => l.target = (showEditor w fid).nextSliderId)
        = [⟨(showEditor w fid).nextKey, (showEditor w fid).nextSliderId, fid⟩] := by
    rw [showEditor_listeners, showEditor_listeners, showEditor_nextSliderId,
      showEditor_nextKey, List.filter_append, List.filter_append]
    have h0 : w.listeners.filter (fun l => l.target = w.nextSliderId + 1) = [] := by
      rw [List.filter_eq_nil_iff]
      intro a ha
      have := hWF a ha
      simp only [decide_eq_true_eq]
      omega
    have h1 : [(⟨w.nextKey, w.nextSliderId, fid⟩ : ListenerEntry)].filter
        (fun l => l.target = w.nextSliderId + 1) = [] := by
      rw [List.filter_eq_nil_iff]
      intro a ha
      simp only [List.mem_singleton] at ha
      subst ha
      simp only [decide_eq_true_eq]
      omega
    have h2 : [(⟨w.nextKey + 1, w.nextSliderId + 1, fid⟩ : ListenerEntry)].filter
        (fun l => l.target = w.nextSliderId + 1) =
        [⟨w.nextKey + 1, w.nextSliderId + 1, fid⟩] := by
      simp
    rw [h0, h1, h2]
    rfl
  refine ⟨showEditor_fields_valueSlider_self _ fid, hfilter, ?_⟩
  unfold fireChange
  rw [hfilter]
  rfl

/-- **C3** witness: opening the editor twice on a fresh field in the
pristine world (whose empty registry trivially satisfies `WFListeners`). -/
theorem c3_witness :
    WFListeners baseWorld ∧
    (((showEditor (showEditor baseWorld 0) 0).fields 0).valueSlider
        = some (showEditor baseWorld 0).nextSliderId ∧
      (showEditor (showEditor baseWorld 0) 0).listeners.filter
          (fun l => l.target = (showEditor baseWorld 0).nextSliderId)
        = [⟨(showEditor baseWorld 0).nextKey, (showEditor baseWorld 0).nextSliderId, 0⟩] ∧
      fireChange (showEditor (showEditor baseWorld 0) 0) (showEditor baseWorld 0).nextSliderId
        = sliderCallback (showEditor (showEditor baseWorld 0) 0) 0
            (some (((showEditor (showEditor baseWorld 0) 0).sliders
              ((showEditor baseWorld 0).nextSliderId)).value))) :=
  ⟨fun l hl => absurd hl (List.not_mem_nil l),
    c3_reopen_single_active_listener baseWorld 0
      (fun l hl => absurd hl (List.not_mem_nil l))⟩

/-! ### C4 — value normalisation at construction -/

/-- **C4**: for every initial value (and any min/max/precision), the
field's value after construction is `String(v)` when the value is numeric
(coerces to an actual number) and present (not `undefined`, not the empty
string), and `"0"` otherwise.  In particular the numeric initial value
`0`, being falsy, takes the `'0'` branch of the source, which coincides
with `String(0)`. -/
theorem c4_construction_value (v m M p : JSVal) :
    (fieldNumberSliderCtor v m M p).value =
      if ¬ isAbsentVal v ∧ isNumericVal v then jsValToString v else "0" := by
  cases v with
  | undefined =>
      rw [if_neg (fun hcon => hcon.1 (Or.inl rfl))]
      rfl
  | nan =>
      rw [if_neg (fun hcon => hcon.2 rfl)]
      rfl
  | inf b =>
      rw [if_pos ⟨by simp [isAbsentVal], by simp [isNumericVal, jsToNumber]⟩]
      show (if (JSVal.inf b).truthy && !(jsIsNaN (.inf b)) then jsValToString (.inf b) else "0")
        = jsValToString (.inf b)
      rw [show (JSVal.inf b).truthy = true from rfl]
      rw [show jsIsNaN (.inf b) = false from by simp [jsIsNaN, jsToNumber]]
      rfl
  | num q =>
      rw [if_pos ⟨by simp [isAbsentVal], by simp [isNumericVal, jsToNumber]⟩]
      rcases eq_or_ne q 0 with rfl | hq
      · show (if (JSVal.num 0).truthy && !(jsIsNaN (.num 0)) then jsValToString (.num 0) else "0")
          = jsValToString (.num 0)
        rw [show (JSVal.num 0).truthy = false from by simp [JSVal.truthy]]
        rw [Bool.false_and, if_neg (by simp)]
        show "0" = jsNumToString 0
        rw [jsNumToString_zero]
      · show (if (JSVal.num q).truthy && !(jsIsNaN (.num q)) then jsValToString (.num q) else "0")
          = jsValToString (.num q)
        rw [show (JSVal.num q).truthy = true from by simp [JSVal.truthy, hq]]
        rw [show jsIsNaN (.num q) = false from by simp [jsIsNaN, jsToNumber]]
        rfl
  | str s =>
      rcases eq_or_ne s "" with rfl | hs
      · rw [if_neg (fun hcon => hcon.1 (Or.inr rfl))]
        rfl
      · by_cases hn : jsStringToNumber s = JSNum.nan
        · rw [if_neg (fun hcon => hcon.2 hn)]
          show (if (JSVal.str s).truthy && !(jsIsNaN (.str s)) then jsValToString (.str s) else "0")
            = "0"
          rw [show jsIsNaN (.str s) = true from by simp [jsIsNaN, jsToNumber, hn]]
          simp
        · rw [if_pos ⟨by simp [isAbsentVal, hs], by simp [isNumericVal, jsToNumber, hn]⟩]
          show (if (JSVal.str s).truthy && !(jsIsNaN (.str s)) then jsValToString (.str s) else "0")
            = jsValToString (.str s)
          rw [show (JSVal.str s).truthy = true from by simp [JSVal.truthy, hs]]
          rw [show jsIsNaN (.str s) = false from by simp [jsIsNaN, jsToNumber, hn]]
          rfl

/-! ### C6 — the zero-value slider workaround -/

/-- **C6**: when `updateSliderHandles_` runs with a slider whose range is
the activation range `[-1, 1]` and the field's current value parses to
exactly `0`, the slider receives `setValue(1)` followed by `setValue(0)`
— so its final model value is `0` and its handle is rendered at `0` even
though a fresh closure slider ignores an initial `setValue(0)` — and when
the value parses to a nonzero `q`, the slider receives a single
`setValue(q)`. -/
theorem c6_zero_workaround (w : World) (fid sid : ℕ) (q : ℚ)
    (hs : (w.fields fid).valueSlider = some sid)
    (hq : parseFloatStr (w.fields fid).getValue = JSNum.num q)
    (hmin : (w.sliders sid).minimum = -1)
    (hmax : (w.sliders sid).maximum = 1) :
    (q = 0 →
      updateSliderHandles w fid = sliderSetValue (sliderSetValue w sid 1) sid 0 ∧
      ((updateSliderHandles w fid).sliders sid).value = 0 ∧
      ((updateSliderHandles w fid).sliders sid).handlePos = some 0) ∧
    (q ≠ 0 → updateSliderHandles w fid = sliderSetValue w sid q) := by
  have hu : updateSliderHandles w fid
      = sliderSetValue (if q = 0 then sliderSetValue w sid 1 else w) sid q := by
    unfold updateSliderHandles
    rw [hs]
    show (match parseFloatStr (w.fields fid).getValue with
      | .nan => w
      | .inf _ => w
      | .num q => sliderSetValue (if q = 0 then sliderSetValue w sid 1 else w) sid q) = _
    rw [hq]
  constructor
  · rintro rfl
    rw [hu, if_pos rfl]
    refine ⟨rfl, ?_⟩
    -- after `setValue(1)` the slider's model value is `1`
    have hw1 : ((sliderSetValue w sid 1).sliders sid).value = 1 := by
      by_cases hc : max (w.sliders sid).minimum (min (w.sliders sid).maximum 1)
          = (w.sliders sid).value
      · rw [sliderSetValue_noop w sid 1 hc, ← hc, hmin, hmax]
        norm_num
      · rw [(sliderSetValue_effective w sid 1 hc).1, hmin, hmax]
        norm_num
    -- the second call is effective: its clamped argument `0` differs from `1`
    have hmin1 : ((sliderSetValue w sid 1).sliders sid).minimum = -1 := by
      rw [sliderSetValue_sliders_minimum, hmin]
    have hmax1 : ((sliderSetValue w sid 1).sliders sid).maximum = 1 := by
      rw [sliderSetValue_sliders_maximum, hmax]
    have hcl : max ((sliderSetValue w sid 1).sliders sid).minimum
        (min ((sliderSetValue w sid 1).sliders sid).maximum 0)
        = 0 := by
      rw [hmin1, hmax1]
      norm_num
    have hne : max ((sliderSetValue w sid 1).sliders sid).minimum
        (min ((sliderSetValue w sid 1).sliders sid).maximum 0)
        ≠ ((sliderSetValue w sid 1).sliders sid).value := by
      rw [hcl, hw1]
      norm_num
    obtain ⟨hv, hp⟩ := sliderSetValue_effective (sliderSetValue w sid 1) sid 0 hne
    exact ⟨by rw [hv, hcl], by rw [hp, hcl]⟩
  · intro hne
    rw [hu, if_neg hne]

/-- **C6** witness: activation scenario with committed value `"0"` and
a fresh slider. -/
theorem c6_witness :
    (zeroOpenWorld.fields 0).valueSlider = some 0 ∧
    parseFloatStr (zeroOpenWorld.fields 0).getValue = JSNum.num 0 ∧
    (zeroOpenWorld.sliders 0).minimum = -1 ∧
    (zeroOpenWorld.sliders 0).maximum = 1 ∧
    (updateSliderHandles zeroOpenWorld 0
        = sliderSetValue (sliderSetValue zeroOpenWorld 0 1) 0 0 ∧
      ((updateSliderHandles zeroOpenWorld 0).sliders 0).value = 0 ∧
      ((updateSliderHandles zeroOpenWorld 0).sliders 0).handlePos = some 0) :=
  ⟨rfl, parseFloatStr_zero, rfl, rfl,
    (c6_zero_workaround zeroOpenWorld 0 0 0 rfl parseFloatStr_zero rfl rfl).1 rfl⟩

/-! ### C7 — the committed value is always numeric -/

/-- **C7** (corrected): the claim says the field's value is always a
string coercible to a *finite* number.  It is not: `isNaN("Infinity")`
is false in JavaScript, so the constructor's guard accepts the initial
value `"Infinity"` and stores it unchanged, and that stored string
coerces to `Infinity` — a number, but not a finite one.  At the concrete
input `"Infinity"` the constructed field holds `"Infinity"`, whose
`Number(string)` coercion is `+Infinity` (`JSNum.inf false`), not
`JSNum.num q` for any rational `q`. -/
theorem c7_always_finite_counterexample :
    (fieldNumberSliderCtor (.str "Infinity") .undefined .undefined .undefined).value
        = "Infinity" ∧
    jsStringToNumber
        ((fieldNumberSliderCtor (.str "Infinity") .undefined .undefined .undefined).value)
      = JSNum.inf false := by
  constructor
  · decide
  · decide

/-- **C7** (amended): at every point in a field's lifetime — after
construction, and after any sequence of committed slider changes — the
field's value is a string that coerces to a *number* under
`Number(string)`, never to NaN; finiteness cannot be guaranteed, since an
initial value such as `"Infinity"` is stored as-is.  A value that does
not coerce to any number falls back to `"0"` at construction.  The
`RepresentableVal` hypothesis only restricts the quantifier to inputs
that exist in JavaScript's number space (it admits every IEEE-754
double, NaN, the infinities, and every string). -/
theorem c7_value_always_numeric (v m M p : JSVal) (hv : RepresentableVal v)
    (s : String) (h : ReachableValue v m M p s) :
    jsStringToNumber s ≠ JSNum.nan := by
  induction h with
  | slide s x _ _ => exact jsStringToNumber_toFixed1_ne_nan _
  | init =>
      show jsStringToNumber
        (if JSVal.truthy v && !(jsIsNaN v) then jsValToString v else "0") ≠ JSNum.nan
      by_cases hg : (JSVal.truthy v && !(jsIsNaN v)) = true
      · rw [if_pos hg]
        cases v with
        | undefined => simp [JSVal.truthy] at hg
        | nan => simp [JSVal.truthy] at hg
        | num q => exact jsStringToNumber_jsNumToString_ne_nan hv
        | inf b => cases b <;> decide
        | str t =>
            have : jsIsNaN (.str t) = false := by
              rcases Bool.and_eq_true_iff.mp hg with ⟨_, h2⟩
              simpa using h2
            have ht : jsStringToNumber t ≠ JSNum.nan := by
              simpa [jsIsNaN, jsToNumber] using this
            exact ht
      · rw [if_neg hg]
        exact jsStringToNumber_zero_ne_nan

/-- **C7** witness: the numeric string initial value `"5"`. -/
theorem c7_witness :
    RepresentableVal (.str "5") ∧
    jsStringToNumber
        ((fieldNumberSliderCtor (.str "5") .undefined .undefined .undefined).value)
      ≠ JSNum.nan :=
  ⟨trivial,
    c7_value_always_numeric (.str "5") .undefined .undefined .undefined trivial _
      ReachableValue.init⟩


end NumberSlider
